import Mathlib

/-!
Shaders/ShaderFunctions.h

The header is a declarations-only interface: fourteen function prototypes of a
Metal shading library.  The development below embeds the header as its text,
reads the prototypes out of that text with a small lexer, and proves the
statements that can be made about the declared interface.
-/

namespace ShaderFunctions

/-! ## The source text -/

/-- Shaders/ShaderFunctions.h, line by line (the 28 lines of the file). -/
def ShaderFunctions_h : List String :=
  [ "#ifndef ShaderFunctions_h",
    "#define ShaderFunctions_h",
    "",
    "#include \"ShaderTypes.metal\"",
    "",
    "// Random and noise functions",
    "float2 random2(float2 p);",
    "float noise(float2 p);",
    "float fbm(float2 p, float time);",
    "",
    "// Water effects",
    "float wave(float2 uv, float time, float frequency, float amplitude, float speed);",
    "float swell(float2 position, float2 direction, float frequency, float amplitude, float time, float speed);",
    "float combinedWaves(float2 position, float time, float2 swellDir, float swellHeight, float swellFreq);",
    "float2 calculateBallPosition(float2 uv, float depth, float waterLine, float time, float2 swellDirection, float swellHeight, float swellFrequency);",
    "",
    "// Sky effects",
    "float cloudNoise(float2 uv, float time);",
    "float cloudShape(float2 uv, float2 center, float scale, float time);",
    "float cloudDetailNoise(float2 uv, float time);",
    "float softNoise(float2 uv, float time);",
    "",
    "// Color ball effects",
    "float3 applyPressureDeformation(float3 position, float2 ballPos, float pressure, float colorBallDepth);",
    "float3 calculateColorAtDepth(float3 originalColor, float depth);",
    "float3 drawColorBall(float2 uv, float2 ballPos, float3 backgroundColor, float depth, constant TimeUniforms& uniforms);",
    "",
    "#endif /* ShaderFunctions_h */ " ]

/-! ## Data model of a prototype -/

/-- Address-space qualifiers of the shading language. -/
inductive AddressSpace
  | device
  | constant
  | thread
  | threadgroup
  deriving DecidableEq, Repr

/-- How a parameter is passed. -/
inductive Passing
  | byValue
  | byReference
  | byPointer
  deriving DecidableEq, Repr

/-- A type as written in a prototype: the named type, its qualifiers and
whether it is a value, a reference (`&`) or a pointer (`*`). -/
structure CType where
  base : String
  space : Option AddressSpace
  isConst : Bool
  passing : Passing
  deriving DecidableEq, Repr

/-- One parameter of a prototype. -/
structure Param where
  type : CType
  name : String
  deriving DecidableEq, Repr

/-- One function prototype. -/
structure Decl where
  ret : CType
  name : String
  params : List Param
  deriving DecidableEq, Repr

/-! ## Reading prototypes out of the text -/

/-- Lexical tokens of a prototype line. -/
inductive Token
  | ident (s : String)
  | sym (c : Char)
  deriving DecidableEq, Repr

/-- Characters of an identifier. -/
def isIdentChar (c : Char) : Bool :=
  c.isAlphanum || c == '_'

/-- The identifier accumulated so far (in reverse), as a token. -/
def flushIdent : List Char → List Token
  | [] => []
  | acc => [Token.ident (String.mk acc.reverse)]

/-- Split the characters of a line into identifiers and symbols. -/
def tokenizeAux : List Char → List Char → List Token
  | [], acc => flushIdent acc
  | c :: cs, acc =>
    if isIdentChar c then tokenizeAux cs (c :: acc)
    else if c.isWhitespace then flushIdent acc ++ tokenizeAux cs []
    else flushIdent acc ++ Token.sym c :: tokenizeAux cs []

/-- Tokens of a line. -/
def tokenize (line : String) : List Token :=
  tokenizeAux line.data []

/-- Drop leading blanks. -/
def dropBlanks : List Char → List Char
  | [] => []
  | c :: cs => if c.isWhitespace then dropBlanks cs else c :: cs

/-- A line that carries no declaration: blank, a preprocessor directive or a
line comment. -/
def isSkipped (line : String) : Bool :=
  match dropBlanks line.data with
  | [] => true
  | '#' :: _ => true
  | '/' :: '/' :: _ => true
  | _ => false

/-- Address-space keyword, if the identifier is one. -/
def addressSpaceOf (s : String) : Option AddressSpace :=
  if s = "device" then some AddressSpace.device
  else if s = "constant" then some AddressSpace.constant
  else if s = "thread" then some AddressSpace.thread
  else if s = "threadgroup" then some AddressSpace.threadgroup
  else none

/-- Fold the tokens of a type into a `CType`; `none` when no type name or more
than one is present. -/
def parseTypeAux : List Token → Option String → Option AddressSpace → Bool → Passing →
    Option CType
  | [], some b, sp, k, p => some ⟨b, sp, k, p⟩
  | [], none, _, _, _ => none
  | Token.sym c :: ts, b, sp, k, _ =>
    if c = '&' then parseTypeAux ts b sp k Passing.byReference
    else if c = '*' then parseTypeAux ts b sp k Passing.byPointer
    else none
  | Token.ident s :: ts, b, sp, k, p =>
    if s = "const" then parseTypeAux ts b sp true p
    else match addressSpaceOf s with
      | some a => parseTypeAux ts b (some a) k p
      | none =>
        match b with
        | none => parseTypeAux ts (some s) sp k p
        | some _ => none

/-- A type from its tokens. -/
def parseType (ts : List Token) : Option CType :=
  parseTypeAux ts none none false Passing.byValue

/-- A declarator `type name`: the last token is the declared name, what comes
before it is the type. -/
def parseDeclarator (ts : List Token) : Option (CType × String) :=
  match ts.reverse with
  | Token.ident n :: rest =>
    match parseType rest.reverse with
    | some t => some (t, n)
    | none => none
  | _ => none

/-- Split a token list at every comma. -/
def splitCommas : List Token → List Token → List (List Token)
  | [], cur => [cur.reverse]
  | t :: ts, cur =>
    if t = Token.sym ',' then cur.reverse :: splitCommas ts []
    else splitCommas ts (t :: cur)

/-- All parameters of a parameter list. -/
def parseParams : List (List Token) → Option (List Param)
  | [] => some []
  | g :: gs =>
    match parseDeclarator g, parseParams gs with
    | some (t, n), some ps => some (⟨t, n⟩ :: ps)
    | _, _ => none

/-- Tokens up to the first occurrence of a symbol, and the tokens after it. -/
def splitAtSym (c : Char) : List Token → List Token → Option (List Token × List Token)
  | [], _ => none
  | t :: ts, cur =>
    if t = Token.sym c then some (cur.reverse, ts)
    else splitAtSym c ts (t :: cur)

/-- A prototype `ret name(params);` from the tokens of its line. -/
def parseDecl (ts : List Token) : Option Decl :=
  match splitAtSym '(' ts [] with
  | none => none
  | some (head, rest) =>
    match splitAtSym ')' rest [] with
    | some (inner, [Token.sym ';']) =>
      match parseDeclarator head with
      | none => none
      | some (r, n) =>
        match inner with
        | [] => some ⟨r, n, []⟩
        | _ =>
          match parseParams (splitCommas inner []) with
          | some ps => some ⟨r, n, ps⟩
          | none => none
    | _ => none

/-- Every prototype of a header, in file order; `none` if a line that should be
a prototype is not one. -/
def parseHeader : List String → Option (List Decl)
  | [] => some []
  | l :: ls =>
    if isSkipped l then parseHeader ls
    else
      match parseDecl (tokenize l), parseHeader ls with
      | some d, some ds => some (d :: ds)
      | _, _ => none

/-- The prototypes the header declares, in file order. -/
def declarations : List Decl :=
  (parseHeader ShaderFunctions_h).getD []

/-! ## Queries on the declared interface -/

/-- The scalar and vector value types of the interface. -/
def floatT : CType := ⟨"float", none, false, Passing.byValue⟩

/-- Two-component vector, by value. -/
def float2T : CType := ⟨"float2", none, false, Passing.byValue⟩

/-- Three-component vector, by value. -/
def float3T : CType := ⟨"float3", none, false, Passing.byValue⟩

/-- The type written `constant TimeUniforms&`. -/
def constantTimeUniformsRef : CType :=
  ⟨"TimeUniforms", some AddressSpace.constant, false, Passing.byReference⟩

/-- The prototype with a given name. -/
def lookup (n : String) : Option Decl :=
  declarations.find? (fun d => d.name = n)

/-- Parameter names of the function with a given name, in declared order. -/
def paramNames (n : String) : Option (List String) :=
  (lookup n).map (fun d => d.params.map Param.name)

/-- Parameter types of the function with a given name, in declared order. -/
def paramTypes (n : String) : Option (List CType) :=
  (lookup n).map (fun d => d.params.map Param.type)

/-- Return type of the function with a given name. -/
def returnType (n : String) : Option CType :=
  (lookup n).map Decl.ret

/-- The last `k` elements of a list. -/
def lastN {α : Type} (k : Nat) (l : List α) : List α :=
  l.drop (l.length - k)

/-- A referent that cannot be written through: it lives in the `constant`
address space or is `const`-qualified. -/
def CType.readOnly (t : CType) : Bool :=
  t.space = some AddressSpace.constant || t.isConst

/-- A parameter through which a callee could hand a value back to its caller:
a reference or pointer to writable storage. -/
def CType.isOutput (t : CType) : Bool :=
  t.passing ≠ Passing.byValue && !t.readOnly

/-- Every (function name, parameter) pair of the interface, in file order. -/
def allParams : List (String × Param) :=
  declarations.flatMap (fun d => d.params.map (fun p => (d.name, p)))

/-- Names of the functions that have a parameter satisfying `q`. -/
def functionsWithParam (q : Param → Bool) : List String :=
  (declarations.filter (fun d => d.params.any q)).map Decl.name

/-- The parameter lists as the specification writes them out (section 4.1):
function name and parameter names in the order given there. -/
def specParameterLists : List (String × List String) :=
  [ ("random2", ["p"]),
    ("noise", ["p"]),
    ("fbm", ["p", "time"]),
    ("wave", ["uv", "time", "frequency", "amplitude", "speed"]),
    ("swell", ["position", "direction", "frequency", "amplitude", "time", "speed"]),
    ("combinedWaves", ["position", "time", "swellDir", "swellHeight", "swellFreq"]),
    ("calculateBallPosition",
      ["uv", "depth", "waterLine", "time", "swellDirection", "swellHeight", "swellFrequency"]),
    ("cloudShape", ["uv", "center", "scale", "time"]),
    ("applyPressureDeformation", ["position", "ballPos", "pressure", "colorBallDepth"]),
    ("calculateColorAtDepth", ["originalColor", "depth"]),
    ("drawColorBall", ["uv", "ballPos", "backgroundColor", "depth", "uniforms"]) ]

/-! ## The header read back -/

/-- A by-value `float` parameter. -/
def pf (n : String) : Param := ⟨floatT, n⟩

/-- A by-value `float2` parameter. -/
def pf2 (n : String) : Param := ⟨float2T, n⟩

/-- A by-value `float3` parameter. -/
def pf3 (n : String) : Param := ⟨float3T, n⟩

/-- The fourteen prototypes of lines 7 to 26, written out. -/
def prototypes : List Decl :=
  [ ⟨float2T, "random2", [pf2 "p"]⟩,
    ⟨floatT, "noise", [pf2 "p"]⟩,
    ⟨floatT, "fbm", [pf2 "p", pf "time"]⟩,
    ⟨floatT, "wave", [pf2 "uv", pf "time", pf "frequency", pf "amplitude", pf "speed"]⟩,
    ⟨floatT, "swell", [pf2 "position", pf2 "direction", pf "frequency", pf "amplitude",
      pf "time", pf "speed"]⟩,
    ⟨floatT, "combinedWaves", [pf2 "position", pf "time", pf2 "swellDir", pf "swellHeight",
      pf "swellFreq"]⟩,
    ⟨float2T, "calculateBallPosition", [pf2 "uv", pf "depth", pf "waterLine", pf "time",
      pf2 "swellDirection", pf "swellHeight", pf "swellFrequency"]⟩,
    ⟨floatT, "cloudNoise", [pf2 "uv", pf "time"]⟩,
    ⟨floatT, "cloudShape", [pf2 "uv", pf2 "center", pf "scale", pf "time"]⟩,
    ⟨floatT, "cloudDetailNoise", [pf2 "uv", pf "time"]⟩,
    ⟨floatT, "softNoise", [pf2 "uv", pf "time"]⟩,
    ⟨float3T, "applyPressureDeformation", [pf3 "position", pf2 "ballPos", pf "pressure",
      pf "colorBallDepth"]⟩,
    ⟨float3T, "calculateColorAtDepth", [pf3 "originalColor", pf "depth"]⟩,
    ⟨float3T, "drawColorBall", [pf2 "uv", pf2 "ballPos", pf3 "backgroundColor", pf "depth",
      ⟨constantTimeUniformsRef, "uniforms"⟩]⟩ ]

/-- The lexer reads every non-skipped line of the header as a prototype, and
the result is the list written out above. -/
theorem parseHeader_ShaderFunctions_h : parseHeader ShaderFunctions_h = some prototypes := by
  decide

/-- The declared interface is the list written out above. -/
theorem declarations_eq : declarations = prototypes := by
  simp [declarations, parseHeader_ShaderFunctions_h]

/-! ## The declared interface -/

/-- C1: the header declares exactly fourteen functions (every line that is not
blank, a comment or a preprocessor directive is a prototype, and there are
fourteen of them), their names are random2, noise, fbm, wave, swell,
combinedWaves, calculateBallPosition, cloudNoise, cloudShape, cloudDetailNoise,
softNoise, applyPressureDeformation, calculateColorAtDepth and drawColorBall,
and each function whose parameter list the specification writes out declares
the same parameter names in the same order. -/
theorem header_declares_fourteen_functions :
    parseHeader ShaderFunctions_h = some declarations ∧
    (ShaderFunctions_h.filter (fun l => !isSkipped l)).length = 14 ∧
    declarations.length = 14 ∧
    declarations.map Decl.name =
      [ "random2", "noise", "fbm", "wave", "swell", "combinedWaves",
        "calculateBallPosition", "cloudNoise", "cloudShape", "cloudDetailNoise",
        "softNoise", "applyPressureDeformation", "calculateColorAtDepth",
        "drawColorBall" ] ∧
    specParameterLists.length = 11 ∧
    ∀ e ∈ specParameterLists, paramNames e.1 = some e.2 := by
  decide

/-- C8: the time-uniform structure is a parameter of exactly one declared
function, drawColorBall, where it is written `constant TimeUniforms&`, a
reference into the read-only constant address space; the functions with a
parameter called time are fbm, wave, swell, combinedWaves,
calculateBallPosition, cloudNoise, cloudShape, cloudDetailNoise and softNoise,
and in each of them it is a plain float passed by value; and the uniforms
parameter of drawColorBall is the only parameter of the whole interface that is
not passed by value. -/
theorem timeUniforms_reference_only_in_drawColorBall :
    functionsWithParam (fun p => p.type.base = "TimeUniforms") = ["drawColorBall"] ∧
    allParams.filter (fun e => e.2.type.base = "TimeUniforms") =
      [("drawColorBall", ⟨constantTimeUniformsRef, "uniforms"⟩)] ∧
    constantTimeUniformsRef.passing = Passing.byReference ∧
    constantTimeUniformsRef.space = some AddressSpace.constant ∧
    constantTimeUniformsRef.readOnly = true ∧
    (allParams.filter (fun e => e.2.name = "time")).map (fun e => (e.1, e.2.type)) =
      [ ("fbm", floatT), ("wave", floatT), ("swell", floatT), ("combinedWaves", floatT),
        ("calculateBallPosition", floatT), ("cloudNoise", floatT), ("cloudShape", floatT),
        ("cloudDetailNoise", floatT), ("softNoise", floatT) ] ∧
    floatT.passing = Passing.byValue ∧
    allParams.filter (fun e => e.2.type.passing ≠ Passing.byValue) =
      [("drawColorBall", ⟨constantTimeUniformsRef, "uniforms"⟩)] := by
  decide

/-- C9: each of the fourteen declared functions returns float, float2 or float3
by value (so none returns void, a status or an optional), no parameter of any of
them is an output parameter (a reference or pointer to writable storage),
calculateBallPosition returns float2, and applyPressureDeformation,
calculateColorAtDepth and drawColorBall return float3. -/
theorem every_function_returns_a_plain_value :
    declarations.length = 14 ∧
    (∀ d ∈ declarations, d.ret = floatT ∨ d.ret = float2T ∨ d.ret = float3T) ∧
    (∀ e ∈ allParams, e.2.type.isOutput = false) ∧
    returnType "calculateBallPosition" = some float2T ∧
    returnType "applyPressureDeformation" = some float3T ∧
    returnType "calculateColorAtDepth" = some float3T ∧
    returnType "drawColorBall" = some float3T := by
  decide

/-- C10: the last four parameters of calculateBallPosition (time,
swellDirection, swellHeight, swellFrequency) and the last four parameters of
combinedWaves (time, swellDir, swellHeight, swellFreq) have the same types in
the same order, float, float2, float, float; swell declares frequency before
amplitude and time after both. -/
theorem ball_position_wave_state_matches_combinedWaves :
    (paramNames "calculateBallPosition").map (lastN 4) =
      some ["time", "swellDirection", "swellHeight", "swellFrequency"] ∧
    (paramNames "combinedWaves").map (lastN 4) =
      some ["time", "swellDir", "swellHeight", "swellFreq"] ∧
    (paramTypes "calculateBallPosition").map (lastN 4) =
      some [floatT, float2T, floatT, floatT] ∧
    (paramTypes "combinedWaves").map (lastN 4) =
      (paramTypes "calculateBallPosition").map (lastN 4) ∧
    (paramNames "swell").map (fun ns =>
        (ns.indexOf "frequency", ns.indexOf "amplitude", ns.indexOf "time", ns.length)) =
      some (2, 3, 4, 6) := by
  decide

end ShaderFunctions
